import Mathlib

/-!
# Shallow embedding of the drawing-guess client (src/App.tsx, src/types.ts)

The repository is a React client for a real-time drawing-and-guessing game.
This file embeds the client state (the `useState` hooks of `App`), the
socket event handlers registered in the `useEffect`, and the user-action
handlers (`handleJoinGame`, `handleDraw`, `handleSendMessage`,
`handleClearCanvas`, `handleReadyForNext`), together with the parts of
`renderContent` that the claims refer to (the word shown in the `Game` and
`RoundEnd` phases).

Modelling choices:
* The socket is modelled by `socketId : Option String`: `none` when no
  socket exists, `some i` for a socket whose id is `i`.  `socket?.id ===
  currentDrawerId` is `isDrawer` below.
* The canvas (`canvasRef`) is modelled as the ordered list of strokes drawn
  on it: `clear()` empties it, `drawFromServer`/a local stroke appends.
* Each user-action handler returns the updated state together with the list
  of messages emitted on the socket during the call (in order).
* JavaScript `username.trim()` is `jsTrim` below: drop leading and
  trailing whitespace characters.  The truthiness test
  `if (username.trim() && socket)` is trimmed-nonempty and socket present.
* In the `newRound` handler the template literal
  `players.find(p => p.id === drawerId)?.username` interpolates the
  JavaScript value `undefined` as the text "undefined" when no player
  matches; `drawerName` reproduces that.  The handler is registered inside
  `useEffect(..., [])` (App.tsx line 125) and therefore closes over the
  mount-time value of `players`, which is the initial `[]` (line 110): the
  lookup always runs over the empty roster, never the live one, so the
  embedded transition builds the message from `[]`.
-/

/-- `GameState` enum from src/types.ts. -/
inductive GameState where
  | Lobby
  | Waiting
  | Game
  | RoundEnd
deriving DecidableEq, Repr

/-- `Player` interface from src/types.ts. -/
structure Player where
  id : String
  username : String
  score : Int
deriving DecidableEq, Repr

/-- `ChatMessage` interface from src/types.ts (optional booleans default to
false, matching the handlers that omit them). -/
structure ChatMessage where
  username : String
  message : String
  isSystemMessage : Bool := false
  isCorrectGuess : Bool := false
deriving DecidableEq, Repr

/-- A 2D point, as used in `DrawData`. -/
structure Point where
  x : Int
  y : Int
deriving DecidableEq, Repr

/-- `DrawData` interface from src/types.ts.  The source fields are named
`from` and `to`; those are reserved words in Lean, so they are embedded as
`fromPt` and `toPt`. -/
structure DrawData where
  fromPt : Point
  toPt : Point
  color : String
  lineWidth : Int
deriving DecidableEq, Repr

/-- The round result stored by the `roundEnd` handler:
`{ winner?: Player; word: string }`. -/
structure RoundResult where
  winner : Option Player
  word : String
deriving DecidableEq, Repr

/-- The client state of the `App` component: one field per `useState` hook,
plus the canvas contents held by `canvasRef`. -/
structure AppState where
  socketId : Option String
  gameState : GameState
  players : List Player
  messages : List ChatMessage
  currentWord : String
  timeLeft : Int
  currentDrawerId : Option String
  username : String
  roundResult : Option RoundResult
  drawColor : String
  lineWidth : Int
  canvas : List DrawData
deriving DecidableEq, Repr

/-- `const isDrawer = socket?.id === currentDrawerId;` (App.tsx line 123).
With no socket, `socket?.id` is `undefined`, which is `===`-equal neither to
a string nor to `null`, so the result is false. -/
def isDrawer (s : AppState) : Bool :=
  match s.socketId, s.currentDrawerId with
  | some i, some d => i == d
  | _, _ => false

/-- The username interpolated into the system message of the `newRound`
handler: `players.find(p => p.id === drawerId)?.username` inside a template
literal, which renders `undefined` as "undefined" when no player matches. -/
def drawerName (players : List Player) (drawerId : String) : String :=
  match players.find? (fun p => p.id == drawerId) with
  | some p => p.username
  | none => "undefined"

/-- The single system chat message installed by the `newRound` handler
(App.tsx line 140). -/
def systemDrawerMessage (players : List Player) (drawerId : String) : ChatMessage :=
  { username := "System"
    message := drawerName players drawerId ++ " rəsm çəkir..."
    isSystemMessage := true
    isCorrectGuess := false }

/-- The server-to-client events the `useEffect` registers handlers for
(App.tsx lines 131-151).  The `connect` handler only logs and is omitted. -/
inductive ServerEvent where
  | gameState (st : GameState)
  | updatePlayers (ps : List Player)
  | chatMessage (msg : ChatMessage)
  | newRound (drawerId : String) (word : String) (time : Int)
  | timer (time : Int)
  | drawing (data : DrawData)
  | clearCanvas
  | roundEnd (result : RoundResult)
deriving DecidableEq, Repr

/-- The socket event handlers of App.tsx lines 131-151, as one transition
on the client state:
* `gameState`: `setGameState(state)`;
* `updatePlayers`: `setPlayers(players)`;
* `chatMessage`: `setMessages(prev => [...prev, msg])`;
* `newRound`: sets phase `Game`, drawer id, word and time from the payload,
  replaces the messages with the single system message, clears the canvas.
  The drawer-name lookup runs over the mount-time roster `[]`, not the live
  one, because the handler closure captures the initial `players` (the
  `useEffect` registering it has no dependencies);
* `timer`: `setTimeLeft(time)`;
* `drawing`: `canvasRef.current?.drawFromServer(data)`;
* `clearCanvas`: `canvasRef.current?.clear()`;
* `roundEnd`: sets phase `RoundEnd` and stores the payload. -/
def handleServerEvent (e : ServerEvent) (s : AppState) : AppState :=
  match e with
  | .gameState st => { s with gameState := st }
  | .updatePlayers ps => { s with players := ps }
  | .chatMessage m => { s with messages := s.messages ++ [m] }
  | .newRound drawerId word time =>
      { s with gameState := GameState.Game
               currentDrawerId := some drawerId
               currentWord := word
               timeLeft := time
               messages := [systemDrawerMessage [] drawerId]
               canvas := [] }
  | .timer t => { s with timeLeft := t }
  | .drawing d => { s with canvas := s.canvas ++ [d] }
  | .clearCanvas => { s with canvas := [] }
  | .roundEnd r => { s with gameState := GameState.RoundEnd, roundResult := some r }

/-- Receiving a sequence of server events, first element first. -/
def applyEvents (es : List ServerEvent) (s : AppState) : AppState :=
  es.foldl (fun s e => handleServerEvent e s) s

/-- The client-to-server messages the handlers can emit. -/
inductive ClientEmit where
  | joinGame (username : String)
  | drawing (data : DrawData)
  | chatMessage (message : String)
  | clearCanvas
  | readyForNextRound
deriving DecidableEq, Repr

/-- JavaScript `String.prototype.trim`: remove leading and trailing
whitespace.  Written with structural `List.dropWhile` so it evaluates in the
kernel; the whitespace class is `Char.isWhitespace`, the same class Lean's
own `String.trim` uses. -/
def jsTrim (s : String) : String :=
  ⟨(((s.data.dropWhile Char.isWhitespace).reverse.dropWhile Char.isWhitespace).reverse)⟩

/-- `handleJoinGame` (App.tsx lines 156-161): when the trimmed username is
truthy (non-empty) and a socket exists, emit `joinGame` with the trimmed
username and set the phase to `Waiting`; otherwise do nothing. -/
def handleJoinGame (s : AppState) : AppState × List ClientEmit :=
  if jsTrim s.username != "" && s.socketId.isSome then
    ({ s with gameState := GameState.Waiting }, [ClientEmit.joinGame (jsTrim s.username)])
  else
    (s, [])

/-- `handleDraw` (App.tsx lines 163-167): `if (socket && isDrawer)
socket.emit('drawing', data)`. -/
def handleDraw (data : DrawData) (s : AppState) : AppState × List ClientEmit :=
  if s.socketId.isSome && isDrawer s then
    (s, [ClientEmit.drawing data])
  else
    (s, [])

/-- `handleSendMessage` (App.tsx lines 169-171):
`socket?.emit('chatMessage', message)`. -/
def handleSendMessage (message : String) (s : AppState) : AppState × List ClientEmit :=
  (s, if s.socketId.isSome then [ClientEmit.chatMessage message] else [])

/-- `handleClearCanvas` (App.tsx lines 173-178): if the client is the
drawer, clear the local canvas and emit `clearCanvas`; otherwise nothing. -/
def handleClearCanvas (s : AppState) : AppState × List ClientEmit :=
  if isDrawer s then
    ({ s with canvas := [] }, if s.socketId.isSome then [ClientEmit.clearCanvas] else [])
  else
    (s, [])

/-- `handleReadyForNext` (App.tsx lines 180-184): emit `readyForNextRound`,
clear the stored round result and set the local phase to `Waiting`. -/
def handleReadyForNext (s : AppState) : AppState × List ClientEmit :=
  ({ s with roundResult := none, gameState := GameState.Waiting },
   if s.socketId.isSome then [ClientEmit.readyForNextRound] else [])

/-- The word shown in the `Game` phase header (App.tsx line 236):
`<p ...>{currentWord}</p>`, rendered unconditionally, for the drawer and
non-drawers alike. -/
def gameDisplayedWord (s : AppState) : String :=
  s.currentWord

/-- The word shown in the `RoundEnd` view (App.tsx line 221):
`{roundResult?.word}`; when `roundResult` is null nothing is shown, embedded
as the empty string. -/
def roundEndDisplayedWord (s : AppState) : String :=
  match s.roundResult with
  | some r => r.word
  | none => ""

/-! ## Concrete states used by counterexamples and witnesses -/

/-- A client in the `RoundEnd` phase with two players in the roster, where
no other player has signaled anything: the state just before the local
player presses the next-round button. -/
def roundEndTwoPlayers : AppState :=
  { socketId := some "sA"
    gameState := GameState.RoundEnd
    players := [{ id := "sA", username := "Aysel", score := 100 },
                { id := "sB", username := "Murad", score := 0 }]
    messages := []
    currentWord := ""
    timeLeft := 0
    currentDrawerId := some "sB"
    username := "Aysel"
    roundResult := some { winner := none, word := "alma" }
    drawColor := "#111827"
    lineWidth := 4
    canvas := [] }

/-- A client whose socket id is "s2", about to receive a `newRound` naming
"s1" as drawer, i.e. a non-drawer client. -/
def nonDrawerClient : AppState :=
  { socketId := some "s2"
    gameState := GameState.Waiting
    players := [{ id := "s1", username := "Aysel", score := 0 },
                { id := "s2", username := "Murad", score := 0 }]
    messages := []
    currentWord := ""
    timeLeft := 0
    currentDrawerId := none
    username := "Murad"
    roundResult := none
    drawColor := "#111827"
    lineWidth := 4
    canvas := [] }

/-- A client in the `Lobby` phase with a connected socket and a username
that trims to a non-empty string. -/
def lobbyClient : AppState :=
  { socketId := some "s0"
    gameState := GameState.Lobby
    players := []
    messages := []
    currentWord := ""
    timeLeft := 0
    currentDrawerId := none
    username := " Murad "
    roundResult := none
    drawColor := "#111827"
    lineWidth := 4
    canvas := [] }

/-! ## Helper lemmas -/

/-- `isDrawer` can only hold when a socket (with an id) exists, because
`socket?.id === currentDrawerId` is false for a missing socket. -/
theorem isDrawer_socket_exists (s : AppState) (h : isDrawer s = true) :
    s.socketId.isSome = true := by
  unfold isDrawer at h
  cases hs : s.socketId with
  | none => rw [hs] at h; cases s.currentDrawerId <;> simp at h
  | some i => rfl

/-! ## Claim theorems -/

/-- Claim C1: `handleDraw` emits the given `DrawData` unchanged exactly when
`isDrawer` holds, i.e. when the local socket id equals the current drawer id;
when they differ (or no socket exists) it emits nothing, so a non-drawer
client never sends a stroke. -/
theorem handleDraw_drawer_gate (s : AppState) (d : DrawData) :
    (handleDraw d s).2 = if isDrawer s then [ClientEmit.drawing d] else [] := by
  cases h : isDrawer s with
  | true =>
    have hs := isDrawer_socket_exists s h
    simp [handleDraw, h, hs]
  | false => simp [handleDraw, h]

/-- Claim C2 counterexample: in a `RoundEnd` state with two players where
only the local player signals `readyForNextRound`, the client's phase
nevertheless moves to `Waiting` immediately, refuting "a single player's
readyForNextRound signal alone does not move the state to Waiting while
other players have not signaled" for this code. -/
theorem single_ready_signal_moves_phase_to_waiting :
    roundEndTwoPlayers.gameState = GameState.RoundEnd ∧
    roundEndTwoPlayers.players.length = 2 ∧
    (handleReadyForNext roundEndTwoPlayers).2 = [ClientEmit.readyForNextRound] ∧
    (handleReadyForNext roundEndTwoPlayers).1.gameState = GameState.Waiting :=
  ⟨rfl, rfl, rfl, rfl⟩

/-- Claim C2 (amended): the client moves its local phase to `Waiting` and
clears the stored round result immediately when the local player signals
`readyForNextRound`, emitting the signal when a socket exists, regardless
of how many other players have signaled; the all-players-ready gating the
spec describes is the server's transition, not implemented in this code. -/
theorem handleReadyForNext_immediate_transition (s : AppState) :
    (handleReadyForNext s).1.gameState = GameState.Waiting ∧
    (handleReadyForNext s).1.roundResult = none ∧
    (handleReadyForNext s).2
      = (if s.socketId.isSome then [ClientEmit.readyForNextRound] else []) :=
  ⟨rfl, rfl, rfl⟩

/-- Claim C3 counterexample: a client whose socket id ("s2") differs from
the drawer id ("s1") of a received `newRound` event stores the payload's
word "alma" and renders it in the `Game` phase, so the word is not
withheld/empty on a non-drawer client unless the server already sent it
empty. -/
theorem newRound_word_not_withheld_from_non_drawer :
    isDrawer (handleServerEvent (ServerEvent.newRound "s1" "alma" 60) nonDrawerClient) = false ∧
    (handleServerEvent (ServerEvent.newRound "s1" "alma" 60) nonDrawerClient).gameState
      = GameState.Game ∧
    (handleServerEvent (ServerEvent.newRound "s1" "alma" 60) nonDrawerClient).currentWord
      = "alma" ∧
    gameDisplayedWord (handleServerEvent (ServerEvent.newRound "s1" "alma" 60) nonDrawerClient)
      = "alma" := by
  refine ⟨by decide, rfl, rfl, rfl⟩

/-- Claim C3 (amended): for every `newRound` event received, the client
stores exactly the word value of the payload and renders that value during
the `Game` phase, whether or not it is the drawer; the client performs no
withholding, so the word is withheld from a non-drawer only if the server
already transmits it withheld/empty. -/
theorem newRound_word_stored_and_rendered_verbatim
    (s : AppState) (d w : String) (t : Int) :
    (handleServerEvent (ServerEvent.newRound d w t) s).currentWord = w ∧
    gameDisplayedWord (handleServerEvent (ServerEvent.newRound d w t) s) = w :=
  ⟨rfl, rfl⟩

/-- Claim C4: the canvas is emptied exactly by the `clearCanvas` and
`newRound` handlers; every other received server event leaves the canvas
unchanged, except `drawing`, which appends the relayed stroke. -/
theorem canvas_cleared_exactly_on_clear_and_newRound (e : ServerEvent) (s : AppState) :
    (handleServerEvent e s).canvas =
      match e with
      | ServerEvent.newRound _ _ _ => []
      | ServerEvent.clearCanvas => []
      | ServerEvent.drawing d => s.canvas ++ [d]
      | _ => s.canvas := by
  cases e <;> rfl

/-- Claim C5: from the `Lobby`, the join handler emits `joinGame` with the
whitespace-trimmed username and moves the phase to `Waiting` exactly when
the trimmed username is non-empty and a socket exists; otherwise it emits
nothing and leaves the state unchanged. -/
theorem handleJoinGame_trim_gate (s : AppState) (h : s.gameState = GameState.Lobby) :
    (jsTrim s.username ≠ "" ∧ s.socketId.isSome = true →
      handleJoinGame s
        = ({ s with gameState := GameState.Waiting }, [ClientEmit.joinGame (jsTrim s.username)])) ∧
    (¬(jsTrim s.username ≠ "" ∧ s.socketId.isSome = true) → handleJoinGame s = (s, [])) ∧
    ((handleJoinGame s).1.gameState = GameState.Waiting
      ↔ jsTrim s.username ≠ "" ∧ s.socketId.isSome = true) := by
  cases hb : (jsTrim s.username != "" && s.socketId.isSome) with
  | true =>
    have hc : jsTrim s.username ≠ "" ∧ s.socketId.isSome = true := by
      have := (Bool.and_eq_true _ _).mp hb
      exact ⟨bne_iff_ne.mp this.1, this.2⟩
    have he : handleJoinGame s
        = ({ s with gameState := GameState.Waiting }, [ClientEmit.joinGame (jsTrim s.username)]) := by
      simp [handleJoinGame, hb]
    exact ⟨fun _ => he, fun hn => absurd hc hn, by rw [he]; exact ⟨fun _ => hc, fun _ => rfl⟩⟩
  | false =>
    have hc : ¬(jsTrim s.username ≠ "" ∧ s.socketId.isSome = true) := by
      intro hcc
      have : (jsTrim s.username != "" && s.socketId.isSome) = true := by
        simp [bne_iff_ne, hcc.1, hcc.2]
      rw [hb] at this
      exact Bool.false_ne_true this
    have he : handleJoinGame s = (s, []) := by
      simp [handleJoinGame, hb]
    refine ⟨fun hcc => absurd hcc hc, fun _ => he, ?_⟩
    rw [he]
    constructor
    · intro hw
      rw [h] at hw
      exact absurd hw (by intro hww; cases hww)
    · intro hcc
      exact absurd hcc hc

/-- Claim C5 witness: on a concrete `Lobby` state with socket "s0" and
username " Murad ", the join handler moves the phase to `Waiting` and emits
the trimmed name. -/
theorem handleJoinGame_trim_gate_witness :
    lobbyClient.gameState = GameState.Lobby ∧
    handleJoinGame lobbyClient
      = ({ lobbyClient with gameState := GameState.Waiting }, [ClientEmit.joinGame "Murad"]) ∧
    ((handleJoinGame lobbyClient).1.gameState = GameState.Waiting
      ↔ jsTrim lobbyClient.username ≠ "" ∧ lobbyClient.socketId.isSome = true) := by
  have h := handleJoinGame_trim_gate lobbyClient rfl
  refine ⟨rfl, ?_, h.2.2⟩
  rw [h.1 ⟨by decide, rfl⟩]
  decide

/-- Claim C6: the clear-canvas action empties the local canvas and emits a
`clearCanvas` message exactly when the client is the current drawer; for a
non-drawer it neither clears nor emits and the state is unchanged. -/
theorem handleClearCanvas_drawer_gate (s : AppState) :
    handleClearCanvas s =
      if isDrawer s then ({ s with canvas := [] }, [ClientEmit.clearCanvas])
      else (s, []) := by
  cases h : isDrawer s with
  | true =>
    have hs := isDrawer_socket_exists s h
    simp [handleClearCanvas, h, hs]
  | false => simp [handleClearCanvas, h]

/-- Claim C7: receiving `roundEnd {winner?, word}` sets the phase to
`RoundEnd`, stores the payload as the round result, and the word then shown
in the `RoundEnd` view is exactly the word of that payload. -/
theorem roundEnd_sets_phase_and_reveals_word (s : AppState) (r : RoundResult) :
    (handleServerEvent (ServerEvent.roundEnd r) s).gameState = GameState.RoundEnd ∧
    (handleServerEvent (ServerEvent.roundEnd r) s).roundResult = some r ∧
    roundEndDisplayedWord (handleServerEvent (ServerEvent.roundEnd r) s) = r.word :=
  ⟨rfl, rfl, rfl⟩

/-- Claim C8: chat is FIFO on the client: receiving any sequence of
`chatMessage` events appends them to the end of the message list in arrival
order, so earlier messages keep their relative positions and the displayed
order (the list is rendered front to back) equals the arrival order. -/
theorem chat_messages_fifo (s : AppState) (ms : List ChatMessage) :
    (applyEvents (ms.map ServerEvent.chatMessage) s).messages = s.messages ++ ms := by
  induction ms generalizing s with
  | nil => simp [applyEvents]
  | cons m ms ih =>
    have h1 : applyEvents ((m :: ms).map ServerEvent.chatMessage) s
        = applyEvents (ms.map ServerEvent.chatMessage)
            (handleServerEvent (ServerEvent.chatMessage m) s) := rfl
    rw [h1, ih]
    simp [handleServerEvent]

/-- Claim C9: evaluation of the code at the failing input.  Receiving
`newRound` does discard the whole chat history and leave exactly one
System-authored message, but that message does not announce the drawer: on
a client whose live roster names the drawer "s1" "Aysel", the reset message
reads "undefined rəsm çəkir..." instead of "Aysel rəsm çəkir...", because
the handler closure captured the mount-time empty roster while line 140
plainly intends to interpolate the drawer's username from the roster. -/
theorem newRound_system_message_is_undefined :
    (handleServerEvent (ServerEvent.newRound "s1" "alma" 60) nonDrawerClient).messages
      = [{ username := "System", message := "undefined rəsm çəkir...",
           isSystemMessage := true, isCorrectGuess := false }] ∧
    drawerName nonDrawerClient.players "s1" = "Aysel" ∧
    drawerName nonDrawerClient.players "s1" ++ " rəsm çəkir..."
      ≠ "undefined rəsm çəkir..." := by
  refine ⟨by decide, by decide, by decide⟩

/-- Claim C10: a `timer` event changes only the remaining time; every other
field of the client state (players, messages, phase, word, drawer id, round
result, canvas, socket, username) is untouched. -/
theorem timer_only_changes_timeLeft (s : AppState) (t : Int) :
    (handleServerEvent (ServerEvent.timer t) s).timeLeft = t ∧
    (handleServerEvent (ServerEvent.timer t) s).players = s.players ∧
    (handleServerEvent (ServerEvent.timer t) s).messages = s.messages ∧
    (handleServerEvent (ServerEvent.timer t) s).gameState = s.gameState ∧
    (handleServerEvent (ServerEvent.timer t) s).currentWord = s.currentWord ∧
    (handleServerEvent (ServerEvent.timer t) s).currentDrawerId = s.currentDrawerId ∧
    (handleServerEvent (ServerEvent.timer t) s).roundResult = s.roundResult ∧
    (handleServerEvent (ServerEvent.timer t) s).canvas = s.canvas ∧
    (handleServerEvent (ServerEvent.timer t) s).socketId = s.socketId ∧
    (handleServerEvent (ServerEvent.timer t) s).username = s.username :=
  ⟨rfl, rfl, rfl, rfl, rfl, rfl, rfl, rfl, rfl, rfl⟩
